import Mathlib

set_option maxRecDepth 40000

/-!
Verification of the V380 camera streaming/capture application (`src/app.py`).

The shallow embedding below models:
* the session state held in `st.session_state` (`camera_active`, `frame`,
  `last_url`) together with the run-loop locals (`frame_count`, the capture
  handle) and the last status event pushed to the status placeholder;
* the run loop of `run_camera` (lines 264-320 of `src/app.py`), driven by a
  finite trace of per-iteration inputs: the value of `camera_active` observed
  at the top of the iteration and the result of `cap.read()`;
* the capture-button block (lines 238-256), with the JPEG encoder and the
  Cloudinary uploader as fallible external collaborators;
* the upload identifier — the literal v380_ followed by int(time.time()) —
  from line 248, with wall-clock time in milliseconds;
* the channel-quality URL substitution, which is absent from `src/app.py`
  and is modelled from the spec.
-/

namespace V380

/-- One decoded raster frame, modelled by its pixel buffer
(`frame.copy()` copies the buffer, so frames have value semantics here). -/
structure Frame where
  data : List Nat
deriving DecidableEq, Repr

/-- The status events the code pushes to the status placeholder:
connecting, connected, failed-to-open-stream, connection-lost-retrying,
and stopped. -/
inductive Status where
  | connecting
  | connected
  | connectError
  | retrying
  | stopped
deriving DecidableEq, Repr

/-- The application state: the `st.session_state` fields the claims are about
(`camera_active`, `frame`, `last_url`), the run-loop local `frame_count`,
whether a capture handle is currently held (`capOpen`), the last status event,
and a counter of release-and-reopen reconnect cycles performed by the loop. -/
structure SessionState where
  camera_active : Bool
  frame : Option Frame
  last_url : Option String
  status : Status
  capOpen : Bool
  frameCount : Nat
  reconnects : Nat
deriving DecidableEq, Repr

/-- The result of one `cap.read()` call: a decoded frame, or a failed read. -/
inductive ReadResult where
  | ok (f : Frame)
  | fail
deriving DecidableEq, Repr

/-- External input to one iteration of the run loop: the value of
`st.session_state.camera_active` observed at the top of the iteration
(the UI may have flipped it), and the read result should the body run. -/
structure LoopInput where
  active : Bool
  read : ReadResult
deriving DecidableEq, Repr

/-- The body of one iteration of the `while st.session_state.camera_active`
loop (src/app.py lines 302-317).  On a failed read: `frame_count += 1`;
if `frame_count > 50` the handle is released and reopened
(`cap.release(); cap = cv2.VideoCapture(url)`), a retrying status is shown and
`frame_count = 0`.  On a successful read: `frame_count = 0` and
`st.session_state.frame = frame.copy()`. -/
def loopStep (s : SessionState) (r : ReadResult) : SessionState :=
  match r with
  | .ok f => { s with frameCount := 0, frame := some f }
  | .fail =>
      if s.frameCount + 1 > 50 then
        { s with frameCount := 0, reconnects := s.reconnects + 1,
                 status := .retrying }
      else
        { s with frameCount := s.frameCount + 1 }

/-- What happens after the `while` loop exits (src/app.py lines 319-320):
`cap.release()` and the stopped status; the loop exits only because
`camera_active` was observed false. -/
def finish (s : SessionState) : SessionState :=
  { s with camera_active := false, capOpen := false, status := .stopped }

/-- The run loop, driven by a finite trace of iteration inputs.  The
`camera_active` flag is checked once at the top of each iteration; when it is
observed false the loop exits and the handle is released.  An exhausted trace
with the flag still true represents a loop that is still running. -/
def runLoop (inputs : List LoopInput) (s : SessionState) : SessionState :=
  match inputs with
  | [] => s
  | i :: rest =>
      if i.active then runLoop rest (loopStep s i.read) else finish s

/-- `run_camera` (src/app.py lines 264-320): opens `cv2.VideoCapture(url)`.
If the handle is not opened: error status, `camera_active = False`, return —
the read loop is never entered and the open is not retried.  Otherwise the
connected status is shown, `frame_count = 0`, and the loop runs. -/
def run_camera (openOk : Bool) (inputs : List LoopInput)
    (s : SessionState) : SessionState :=
  if openOk then
    runLoop inputs
      { s with status := .connected, capOpen := true, frameCount := 0 }
  else
    { s with status := .connectError, camera_active := false,
             capOpen := false }

/-- The upload result recorded for a serviced capture: the secure URL on
success, or the failure reason shown by the st.error call — the text
Upload failed: followed by the exception message. -/
inductive UploadResult where
  | success (url : String)
  | failure (reason : String)
deriving DecidableEq, Repr

/-- The outcome the capture-button handler yields to its caller: either a
terminal upload result, or nothing was captured (button disabled while the
camera is inactive, or `st.session_state.frame is None`). -/
inductive CaptureOutcome where
  | nothingToCapture
  | result (r : UploadResult)
deriving DecidableEq, Repr

/-- The capture-button block (src/app.py lines 238-256).  The button is
disabled while `camera_active` is false; with no frame yet the guarded body is
skipped.  Otherwise the frame is encoded and uploaded — both are fallible
external collaborators, and the whole pipeline runs inside `try`/`except`, so
any raised error is caught.  On success `st.session_state.last_url` is set to
the returned URL; on failure the reason is shown and no state changes. -/
def captureStep (encode : Frame → Except String (List Nat))
    (upload : List Nat → Except String String)
    (s : SessionState) : SessionState × CaptureOutcome :=
  if s.camera_active then
    match s.frame with
    | none => (s, .nothingToCapture)
    | some f =>
        match (encode f).bind upload with
        | .ok url =>
            ({ s with last_url := some url }, .result (.success url))
        | .error e =>
            (s, .result (.failure ("Upload failed: " ++ e)))
  else
    (s, .nothingToCapture)

/-- The upload identifier of src/app.py line 248 — the literal v380_ followed
by int(time.time()) — with wall-clock time given in milliseconds, since
int(time.time()) truncates the clock to whole seconds. -/
def public_id (timeMs : Nat) : String :=
  "v380_" ++ toString (timeMs / 1000)

/-- Modelled from the spec: the channel-quality substitution of
`StreamSession.Open` is not in `src/app.py` (the URL there carries a fixed
`ch00_1` segment; the quality selector lives in the other variants of the
repository).  Two recognized quality values map to the two literal channel path
segments of the device; any other value is unrecognized. -/
def qualitySegment : String → Option String
  | "high" => some "ch00_0"
  | "low" => some "ch00_1"
  | _ => none

/-- Whether a path segment is one of the two channel-quality segments. -/
def isChannelSeg (s : String) : Bool :=
  s = "ch00_0" || s = "ch00_1"

/-- Modelled from the spec: constructing the effective URL substitutes the
channel-quality segment (the URL is viewed as its list of path segments)
according to the selected quality; an unrecognized quality leaves the URL
unchanged. -/
def applyQuality (q : String) (segs : List String) : List String :=
  match qualitySegment q with
  | none => segs
  | some lit => segs.map (fun s => if isChannelSeg s then lit else s)

/-- A loop-iteration input with the session still active and a failed read. -/
def failInput : LoopInput :=
  { active := true, read := ReadResult.fail }

/-- The session state right after a successful connect, before any read. -/
def initState : SessionState :=
  { camera_active := true, frame := none, last_url := none,
    status := Status.connected, capOpen := true, frameCount := 0,
    reconnects := 0 }

/-- A small concrete frame used in witnesses. -/
def frame0 : Frame :=
  { data := [7, 7, 7] }

/-- A connected session that has already published `frame0`. -/
def stateWithFrame : SessionState :=
  { initState with frame := some frame0 }

/-- `stateWithFrame` after a previous successful upload was recorded. -/
def stateWithUpload : SessionState :=
  { stateWithFrame with
    last_url := some "https://res.cloudinary.com/demo/v380_snapshots/old.jpg" }

/-- An encoder collaborator that always succeeds, returning the pixel bytes. -/
def encOk : Frame → Except String (List Nat) :=
  fun f => Except.ok f.data

/-- An uploader collaborator that always succeeds with a fixed secure URL. -/
def upOk : List Nat → Except String String :=
  fun _ => Except.ok "https://res.cloudinary.com/demo/v380_snapshots/new.jpg"

/-- An uploader collaborator stubbed to fail with a quota-exceeded reason. -/
def upFail : List Nat → Except String String :=
  fun _ => Except.error "quota exceeded"

/-- Path segments of the demo RTSP URL preceding the channel segment. -/
def demoPre : List String :=
  ["rtsp:", "", "user:pass@192.168.100.124:554", "live"]

/-- `loopStep` never touches `camera_active`. -/
theorem loopStep_camera_active (s : SessionState) (r : ReadResult) :
    (loopStep s r).camera_active = s.camera_active := by
  cases r with
  | ok f => rfl
  | fail =>
      simp only [loopStep]
      split <;> rfl

/-- `loopStep` leaves the status alone or sets it to retrying. -/
theorem loopStep_status (s : SessionState) (r : ReadResult) :
    (loopStep s r).status = s.status ∨ (loopStep s r).status = Status.retrying := by
  cases r with
  | ok f => exact Or.inl rfl
  | fail =>
      simp only [loopStep]
      split
      · exact Or.inr rfl
      · exact Or.inl rfl

/-- While every observed flag is true, the loop body never changes
`camera_active`. -/
theorem runLoop_camera_active (inputs : List LoopInput) (s : SessionState)
    (h : ∀ i ∈ inputs, i.active = true) :
    (runLoop inputs s).camera_active = s.camera_active := by
  induction inputs generalizing s with
  | nil => rfl
  | cons i rest ih =>
      have hi : i.active = true := h i (List.mem_cons_self i rest)
      simp only [runLoop, hi, if_true]
      rw [ih (loopStep s i.read) (fun j hj => h j (List.mem_cons_of_mem i hj)),
        loopStep_camera_active]

/-- While every observed flag is true, the loop never reaches the stopped
status (reached only via `finish`). -/
theorem runLoop_status_stopped (inputs : List LoopInput) (s : SessionState)
    (h : ∀ i ∈ inputs, i.active = true) :
    (runLoop inputs s).status = Status.stopped → s.status = Status.stopped := by
  induction inputs generalizing s with
  | nil => exact fun h2 => h2
  | cons i rest ih =>
      have hi : i.active = true := h i (List.mem_cons_self i rest)
      simp only [runLoop, hi, if_true]
      intro h2
      have h3 : (loopStep s i.read).status = Status.stopped :=
        ih (loopStep s i.read) (fun j hj => h j (List.mem_cons_of_mem i hj)) h2
      rcases loopStep_status s i.read with h4 | h4
      · rw [h4] at h3; exact h3
      · rw [h4] at h3; cases h3

/-- Running the loop on a concatenated trace of still-active inputs is
running it on the pieces in order. -/
theorem runLoop_append (xs ys : List LoopInput) (s : SessionState)
    (h : ∀ i ∈ xs, i.active = true) :
    runLoop (xs ++ ys) s = runLoop ys (runLoop xs s) := by
  induction xs generalizing s with
  | nil => rfl
  | cons x rest ih =>
      have hx : x.active = true := h x (List.mem_cons_self x rest)
      simp only [List.cons_append, runLoop, hx, if_true]
      exact ih (loopStep s x.read) (fun j hj => h j (List.mem_cons_of_mem x hj))

/-- Every input of a replicated failure trace is still active. -/
theorem failInput_all_active (n : Nat) :
    ∀ i ∈ List.replicate n failInput, i.active = true := by
  intro i hi
  rw [List.eq_of_mem_replicate hi]
  rfl

/-- Up to the threshold, each failed read just increments the counter. -/
theorem runLoop_fail_below (n : Nat) (s : SessionState)
    (h : s.frameCount + n ≤ 50) :
    runLoop (List.replicate n failInput) s =
      { s with frameCount := s.frameCount + n } := by
  induction n generalizing s with
  | zero => rfl
  | succ n ih =>
      have hact : failInput.active = true := rfl
      have hread : failInput.read = ReadResult.fail := rfl
      have hstep : loopStep s ReadResult.fail =
          { s with frameCount := s.frameCount + 1 } := by
        simp only [loopStep]
        rw [if_neg (by omega)]
      rw [List.replicate_succ]
      simp only [runLoop]
      rw [if_pos hact, hread, hstep]
      have hnext := ih { s with frameCount := s.frameCount + 1 } (by simp; omega)
      rw [hnext]
      have harith : s.frameCount + 1 + n = s.frameCount + (n + 1) := by omega
      simp [harith]

/-- From a zero counter, 51 consecutive failed reads run one full
release-and-reopen cycle: counter back to zero, one more reconnect,
retrying status. -/
theorem runLoop_fail_cycle (s : SessionState) (h : s.frameCount = 0) :
    runLoop (List.replicate 51 failInput) s =
      { s with frameCount := 0, reconnects := s.reconnects + 1,
               status := Status.retrying } := by
  have h50 : runLoop (List.replicate 50 failInput) s =
      { s with frameCount := 50 } := by
    rw [runLoop_fail_below 50 s (by omega), h]
  have hsplit : List.replicate 51 failInput =
      List.replicate 50 failInput ++ [failInput] := by
    rw [← List.replicate_succ']
  rw [hsplit, runLoop_append _ _ _ (failInput_all_active 50), h50]
  rfl

/-- From a zero counter, k+1 blocks of 51 failed reads perform k+1
reconnect cycles. -/
theorem runLoop_fail_cycles (k : Nat) (s : SessionState) (h : s.frameCount = 0) :
    (runLoop (List.replicate (51 * (k + 1)) failInput) s).reconnects =
      s.reconnects + (k + 1) := by
  induction k generalizing s with
  | zero =>
      have h51 : 51 * (0 + 1) = 51 := by norm_num
      rw [h51, runLoop_fail_cycle s h]
  | succ k ih =>
      have hsplit : List.replicate (51 * (k + 1 + 1)) failInput =
          List.replicate 51 failInput ++ List.replicate (51 * (k + 1)) failInput := by
        rw [← List.replicate_add]
        congr 1
        ring
      rw [hsplit, runLoop_append _ _ _ (failInput_all_active 51),
        runLoop_fail_cycle s h]
      have hnext := ih { s with frameCount := 0, reconnects := s.reconnects + 1, status := Status.retrying } rfl
      rw [hnext]
      show s.reconnects + 1 + (k + 1) = s.reconnects + (k + 1 + 1)
      omega

/-- C1, counterexample.  The claim says read failures exhaust a bounded
retry budget, after which the loop exits and the session is reported as
terminal.  In the code there is no budget: after 153 consecutive failed
reads with the session still active, three full reconnect cycles have run,
the session is still active, the loop has not exited (the handle is still
held) and no terminal status has been reported. -/
theorem C1_no_retry_budget :
    (runLoop (List.replicate 153 failInput) initState).reconnects = 3 ∧
    (runLoop (List.replicate 153 failInput) initState).camera_active = true ∧
    (runLoop (List.replicate 153 failInput) initState).capOpen = true ∧
    (runLoop (List.replicate 153 failInput) initState).status ≠ Status.stopped := by
  refine ⟨?_, ?_, ?_, ?_⟩ <;> decide

/-- C1, amended.  While the session stays active, the run loop never exits
on read failures and never reports a terminal status: its reconnect attempts
are unbounded — for every candidate budget B there is a persistent-failure
trace that performs more than B release-and-reopen cycles with the session
still active.  Streaming stops only by external deactivation. -/
theorem C1_reconnects_unbounded :
    (∀ (inputs : List LoopInput) (s : SessionState),
      (∀ i ∈ inputs, i.active = true) →
      (runLoop inputs s).camera_active = s.camera_active ∧
      ((runLoop inputs s).status = Status.stopped → s.status = Status.stopped)) ∧
    (∀ B : Nat, ∃ inputs : List LoopInput,
      (∀ i ∈ inputs, i.active = true) ∧
      (runLoop inputs initState).reconnects > B ∧
      (runLoop inputs initState).camera_active = true) := by
  constructor
  · intro inputs s h
    exact ⟨runLoop_camera_active inputs s h, runLoop_status_stopped inputs s h⟩
  · intro B
    refine ⟨List.replicate (51 * (B + 1)) failInput,
      failInput_all_active _, ?_, ?_⟩
    · rw [runLoop_fail_cycles B initState rfl]
      omega
    · rw [runLoop_camera_active _ _ (failInput_all_active _)]
      rfl

/-- C1, witness for the amended theorem at concrete inputs. -/
theorem C1_reconnects_unbounded_witness :
    ((∀ i ∈ [failInput], i.active = true) ∧
      (runLoop [failInput] initState).camera_active = initState.camera_active) ∧
    (∃ inputs : List LoopInput,
      (∀ i ∈ inputs, i.active = true) ∧
      (runLoop inputs initState).reconnects > 5 ∧
      (runLoop inputs initState).camera_active = true) :=
  ⟨⟨by decide,
    (C1_reconnects_unbounded.1 [failInput] initState (by decide)).1⟩,
   C1_reconnects_unbounded.2 5⟩

/-- C2.  The loop body, while the session is active: from every state — in
particular whatever the current counter value — a successful read resets
the consecutive-failure counter to 0 and replaces the latest frame with the
frame just decoded; a failed read leaves the latest frame untouched and,
below the threshold, just increments the counter; starting from a zero
counter, N failed reads with N at most 50 leave the session active with the
counter exactly N; and the 51st consecutive failure — the one that exceeds
the threshold — releases and reopens the handle (one reconnect cycle) and
resets the counter to 0, deterministically. -/
theorem C2_loop_body :
    (∀ (s : SessionState) (f : Frame),
      loopStep s (ReadResult.ok f) =
        { s with frameCount := 0, frame := some f }) ∧
    (∀ s : SessionState, (loopStep s ReadResult.fail).frame = s.frame) ∧
    (∀ s : SessionState, s.frameCount + 1 ≤ 50 →
      loopStep s ReadResult.fail = { s with frameCount := s.frameCount + 1 }) ∧
    (∀ (s : SessionState) (N : Nat), N ≤ 50 → s.frameCount = 0 →
      runLoop (List.replicate N failInput) s = { s with frameCount := N } ∧
      (runLoop (List.replicate N failInput) s).camera_active =
        s.camera_active) ∧
    (∀ s : SessionState, s.frameCount = 0 →
      runLoop (List.replicate 51 failInput) s =
        { s with frameCount := 0, reconnects := s.reconnects + 1,
                 status := Status.retrying }) := by
  refine ⟨fun s f => rfl, ?_, ?_, ?_, fun s h0 => runLoop_fail_cycle s h0⟩
  · intro s
    simp only [loopStep]
    split <;> rfl
  · intro s hle
    simp only [loopStep]
    rw [if_neg (by omega)]
  · intro s N hN h0
    have hbelow : runLoop (List.replicate N failInput) s =
        { s with frameCount := N } := by
      rw [runLoop_fail_below N s (by omega), h0]
      simp
    exact ⟨hbelow, by rw [hbelow]⟩

/-- C2, witness: a successful read from a state with seventeen accumulated
failures resets the counter to zero and installs the decoded frame, and
seven consecutive failures from a fresh connection leave the counter at
seven. -/
theorem C2_loop_body_witness :
    loopStep { initState with frameCount := 17 } (ReadResult.ok frame0) =
      { initState with frameCount := 0, frame := some frame0 } ∧
    (7 ≤ 50 ∧ initState.frameCount = 0) ∧
    runLoop (List.replicate 7 failInput) initState =
      { initState with frameCount := 7 } :=
  ⟨C2_loop_body.1 { initState with frameCount := 17 } frame0,
   ⟨by decide, rfl⟩,
   (C2_loop_body.2.2.2.1 initState 7 (by decide) rfl).1⟩

/-- C3.  When the handle cannot be opened, `run_camera` reports the connect
error, marks the session inactive and returns at once: the result does not
depend on the read trace (the read/retry loop is never entered), the latest
frame is untouched, and no reconnect of the open is attempted. -/
theorem C3_open_failure (inputs : List LoopInput) (s : SessionState) :
    run_camera false inputs s =
      { s with status := Status.connectError, camera_active := false,
               capOpen := false } ∧
    run_camera false inputs s = run_camera false [] s ∧
    (run_camera false inputs s).frame = s.frame ∧
    (run_camera false inputs s).reconnects = s.reconnects :=
  ⟨rfl, rfl, rfl, rfl⟩

/-- C8, counterexample.  The claim says closing the session clears the
latest frame.  After the loop exits on deactivation the handle is released
and the stopped status is shown, but the session still holds the last
published frame — it is not cleared. -/
theorem C8_frame_not_cleared :
    (runLoop [{ active := false, read := ReadResult.fail }] stateWithFrame).capOpen
        = false ∧
    (runLoop [{ active := false, read := ReadResult.fail }] stateWithFrame).status
        = Status.stopped ∧
    (runLoop [{ active := false, read := ReadResult.fail }] stateWithFrame).frame
        = some frame0 ∧
    some frame0 ≠ (none : Option Frame) := by
  refine ⟨rfl, rfl, rfl, by decide⟩

/-- C8, amended.  When the session is externally deactivated the run loop
terminates immediately — the flag is checked once per iteration, and on
observing it false the rest of the trace is ignored; the close releases the
underlying handle and reports the stopped status, and it is idempotent; but
the latest frame is retained, not cleared. -/
theorem C8_deactivation_close (r : ReadResult) (rest : List LoopInput)
    (s : SessionState) :
    runLoop ({ active := false, read := r } :: rest) s = finish s ∧
    (finish s).capOpen = false ∧
    (finish s).status = Status.stopped ∧
    (finish s).camera_active = false ∧
    (finish s).frame = s.frame ∧
    finish (finish s) = finish s :=
  ⟨rfl, rfl, rfl, rfl, rfl, rfl⟩

/-- C4.  A serviced capture (session active, a frame available) always
yields a terminal upload result to the caller — the whole encode/upload
pipeline runs inside the try/except, so no fault escapes: when the pipeline
returns a URL the result is success of that URL and the last-upload state
records it; when the pipeline fails the result carries the failure reason
and the last-upload state is untouched. -/
theorem C4_capture_result (encode : Frame → Except String (List Nat))
    (upload : List Nat → Except String String) (s : SessionState) (f : Frame)
    (hact : s.camera_active = true) (hf : s.frame = some f) :
    ∃ r : UploadResult,
      (captureStep encode upload s).2 = CaptureOutcome.result r ∧
      (∀ url, (encode f).bind upload = Except.ok url →
        r = UploadResult.success url ∧
        (captureStep encode upload s).1.last_url = some url) ∧
      (∀ e, (encode f).bind upload = Except.error e →
        r = UploadResult.failure ("Upload failed: " ++ e) ∧
        (captureStep encode upload s).1.last_url = s.last_url) := by
  cases hres : (encode f).bind upload with
  | ok url =>
      refine ⟨UploadResult.success url, ?_, ?_, ?_⟩
      · simp [captureStep, hact, hf, hres]
      · intro u hu
        injection hu with hu
        subst hu
        exact ⟨rfl, by simp [captureStep, hact, hf, hres]⟩
      · intro e he
        simp at he
  | error e =>
      refine ⟨UploadResult.failure ("Upload failed: " ++ e), ?_, ?_, ?_⟩
      · simp [captureStep, hact, hf, hres]
      · intro u hu
        simp at hu
      · intro e2 he2
        injection he2 with he2
        subst he2
        exact ⟨rfl, by simp [captureStep, hact, hf, hres]⟩

/-- C4, witness: a capture on an active session with a frame, with both
collaborators succeeding, yields a terminal result. -/
theorem C4_capture_result_witness :
    (stateWithFrame.camera_active = true ∧
      stateWithFrame.frame = some frame0) ∧
    ∃ r : UploadResult,
      (captureStep encOk upOk stateWithFrame).2 = CaptureOutcome.result r :=
  ⟨⟨rfl, rfl⟩,
   (C4_capture_result encOk upOk stateWithFrame frame0 rfl rfl).imp
     (fun _ hr => hr.1)⟩

/-- C5, counterexample.  The claim says two captures within the same
wall-clock second derive distinct identifiers thanks to a sub-second
disambiguator.  The identifier uses only int(time.time()): at 1000.2s and
1000.8s — distinct instants inside one second — the identifiers coincide. -/
theorem C5_same_second_collision :
    (1000200 : Nat) ≠ 1000800 ∧
    (1000200 : Nat) / 1000 = 1000800 / 1000 ∧
    public_id 1000200 = public_id 1000800 := by
  refine ⟨by decide, by decide, rfl⟩

/-- C5, amended.  The upload identifier is derived from the wall-clock time
coarse to the second only, with no sub-second disambiguator: any two
captures serviced within the same wall-clock second receive the same
identifier — they collide rather than stay distinct. -/
theorem C5_id_only_seconds (t1 t2 : Nat) (h : t1 / 1000 = t2 / 1000) :
    public_id t1 = public_id t2 := by
  simp only [public_id, h]

/-- C5, witness for the amended theorem: 5.000s and 5.999s fall in the same
second and get the same identifier. -/
theorem C5_id_only_seconds_witness :
    (5000 : Nat) / 1000 = 5999 / 1000 ∧ public_id 5000 = public_id 5999 :=
  ⟨by decide, C5_id_only_seconds 5000 5999 (by decide)⟩

/-- C6.  A capture request while the session is inactive (the button is
disabled) or before any frame exists is a no-op: the handler returns the
nothing-to-capture outcome, the state — in particular the last-upload
value — is exactly unchanged, and being a total function it cannot crash. -/
theorem C6_nothing_to_capture (encode : Frame → Except String (List Nat))
    (upload : List Nat → Except String String) (s : SessionState)
    (h : s.camera_active = false ∨ s.frame = none) :
    captureStep encode upload s = (s, CaptureOutcome.nothingToCapture) ∧
    (captureStep encode upload s).1.last_url = s.last_url := by
  have hmain : captureStep encode upload s =
      (s, CaptureOutcome.nothingToCapture) := by
    rcases h with h | h
    · simp [captureStep, h]
    · cases hca : s.camera_active
      · simp [captureStep, hca]
      · simp [captureStep, hca, h]
  exact ⟨hmain, by rw [hmain]⟩

/-- C6, witness: a freshly connected session has no frame yet; a capture
request is the nothing-to-capture no-op. -/
theorem C6_nothing_to_capture_witness :
    (initState.camera_active = false ∨ initState.frame = none) ∧
    captureStep encOk upOk initState =
      (initState, CaptureOutcome.nothingToCapture) :=
  ⟨Or.inr rfl,
   (C6_nothing_to_capture encOk upOk initState (Or.inr rfl)).1⟩

/-- C7.  A capture whose encode/upload pipeline fails leaves the session
state exactly as it was: the whole state is unchanged — so the session
stays active and the latest frame is untouched — the failure is fatal to
that capture only. -/
theorem C7_failure_leaves_session (encode : Frame → Except String (List Nat))
    (upload : List Nat → Except String String) (s : SessionState) (f : Frame)
    (e : String) (hact : s.camera_active = true) (hf : s.frame = some f)
    (herr : (encode f).bind upload = Except.error e) :
    (captureStep encode upload s).1 = s ∧
    (captureStep encode upload s).1.camera_active = true ∧
    (captureStep encode upload s).1.frame = s.frame := by
  have h1 : (captureStep encode upload s).1 = s := by
    simp [captureStep, hact, hf, herr]
  exact ⟨h1, by rw [h1]; exact hact, by rw [h1]⟩

/-- C7, witness: the upload collaborator stubbed to fail with quota
exceeded leaves the session state untouched. -/
theorem C7_failure_leaves_session_witness :
    (stateWithFrame.camera_active = true ∧
      stateWithFrame.frame = some frame0 ∧
      (encOk frame0).bind upFail = Except.error "quota exceeded") ∧
    (captureStep encOk upFail stateWithFrame).1 = stateWithFrame :=
  ⟨⟨rfl, rfl, rfl⟩,
   (C7_failure_leaves_session encOk upFail stateWithFrame frame0
     "quota exceeded" rfl rfl rfl).1⟩

/-- C9 (the quality substitution is modelled from the spec; it is not in
src/app.py).  For a URL whose segments contain the channel-quality segment
exactly once, a recognized quality selector substitutes that one segment by
its mapped literal and leaves every other segment unchanged; an
unrecognized selector leaves the URL unchanged. -/
theorem C9_quality_substitution (q lit c : String) (pre post : List String)
    (hq : qualitySegment q = some lit) (hc : isChannelSeg c = true)
    (hpre : ∀ x ∈ pre, isChannelSeg x = false)
    (hpost : ∀ x ∈ post, isChannelSeg x = false) :
    applyQuality q (pre ++ c :: post) = pre ++ lit :: post ∧
    (∀ q2, qualitySegment q2 = none →
      applyQuality q2 (pre ++ c :: post) = pre ++ c :: post) := by
  have hmap : ∀ l : List String, (∀ x ∈ l, isChannelSeg x = false) →
      l.map (fun x => if isChannelSeg x then lit else x) = l := by
    intro l
    induction l with
    | nil => intro _; rfl
    | cons a t ih =>
        intro hl
        have ha : isChannelSeg a = false := hl a (List.mem_cons_self a t)
        simp only [List.map_cons, ha, Bool.false_eq_true, if_false]
        rw [ih (fun x hx => hl x (List.mem_cons_of_mem a hx))]
  constructor
  · simp only [applyQuality, hq]
    rw [List.map_append, List.map_cons, hmap pre hpre, hmap post hpost, hc]
    simp
  · intro q2 hq2
    simp [applyQuality, hq2]

/-- C9, witness on the demo RTSP URL: the high quality selector maps the
single channel segment to its literal and leaves the rest unchanged. -/
theorem C9_quality_substitution_witness :
    (qualitySegment "high" = some "ch00_0" ∧ isChannelSeg "ch00_1" = true) ∧
    applyQuality "high" (demoPre ++ "ch00_1" :: []) =
      demoPre ++ "ch00_0" :: [] :=
  ⟨⟨rfl, rfl⟩,
   (C9_quality_substitution "high" "ch00_0" "ch00_1" demoPre [] rfl rfl
     (by decide) (by decide)).1⟩

/-- C10.  When the encode/upload pipeline of a capture fails, the stored
last-upload URL keeps exactly the value it had before the capture, whatever
that value was (including none): a recorded success is never replaced by a
failure.  This holds whether or not the session is active. -/
theorem C10_last_url_preserved (encode : Frame → Except String (List Nat))
    (upload : List Nat → Except String String) (s : SessionState) (f : Frame)
    (e : String) (hf : s.frame = some f)
    (herr : (encode f).bind upload = Except.error e) :
    (captureStep encode upload s).1.last_url = s.last_url := by
  cases hca : s.camera_active
  · simp [captureStep, hca]
  · simp [captureStep, hca, hf, herr]

/-- C10, witness: a failing upload on a session with a previously recorded
upload URL leaves that URL in place. -/
theorem C10_last_url_preserved_witness :
    (stateWithUpload.frame = some frame0 ∧
      (encOk frame0).bind upFail = Except.error "quota exceeded") ∧
    (captureStep encOk upFail stateWithUpload).1.last_url =
      stateWithUpload.last_url :=
  ⟨⟨rfl, rfl⟩,
   C10_last_url_preserved encOk upFail stateWithUpload frame0
     "quota exceeded" rfl rfl⟩

end V380
